import Mathlib

/-!
Verification of the AeroGuard AI ML training pipeline
(`src/backend/src/ml/train.py`) against its design specification.

The deterministic data-transformation core is shallowly embedded:
Python floats are idealized as rationals (`ℚ`), nullable columns as
`Option ℚ`, and pandas / sklearn library calls are modelled by their
documented elementwise semantics on lists.
-/

namespace AQI

/-! ## ExposureScorer: `calculate_disease_probabilities` (train.py lines 269-314) -/

/-- Input record of `calculate_disease_probabilities` (`exposure_data` dict):
`avg_pm25`, `peak_pm25`, `hours_unhealthy`, `duration_days`. -/
structure ExposureProfile where
  avg_pm25 : ℚ
  peak_pm25 : ℚ
  hours_unhealthy : ℚ
  duration_days : ℚ
deriving DecidableEq

/-- Output record of `calculate_disease_probabilities`. -/
structure RiskScoreSet where
  asthma_risk : ℚ
  copd_risk : ℚ
  cardiovascular_risk : ℚ
  allergy_risk : ℚ
deriving DecidableEq

/-- Python's `round(x, 2)`: round to 2 decimal places.  (Idealized over `ℚ`;
CPython uses round-half-even on binary floats, which agrees except at exact
half-cent ties, none of which occur in the claims below.) -/
def round2 (x : ℚ) : ℚ := (round (x * 100) : ℚ) / 100

/-- `calculate_disease_probabilities` (train.py lines 288-314).  Reads the
`avg_pm25`, `peak_pm25` and `hours_unhealthy` fields of the input dict and
returns the four rounded, capped scores.  `duration_days` is present in the
documented input contract (line 278) but never read by the body. -/
def calculate_disease_probabilities (e : ExposureProfile) : RiskScoreSet :=
  let pm25 := e.avg_pm25
  let peak := e.peak_pm25
  let hours := e.hours_unhealthy
  let asthma_base := min 100 ((pm25 / 35) * 50)
  let asthma_peak_factor := 1 + (peak / 100) * (1/2)
  let asthma_risk := min 100 (asthma_base * asthma_peak_factor)
  let copd_risk := min 100 ((pm25 / 50) * 40 + (hours / 720) * 30)
  let cvd_risk := min 100 ((pm25 / 40) * 35 + (peak / 150) * 40)
  let allergy_risk := min 100 ((pm25 / 30) * 30)
  { asthma_risk := round2 asthma_risk
    copd_risk := round2 copd_risk
    cardiovascular_risk := round2 cvd_risk
    allergy_risk := round2 allergy_risk }

/-! Helper bounds for the score formulas. -/

lemma min100_nonneg {t : ℚ} (ht : 0 ≤ t) : 0 ≤ min 100 t :=
  le_min (by norm_num) ht

lemma min100_le : ∀ t : ℚ, min 100 t ≤ 100 := fun _ => min_le_left _ _

lemma round2_nonneg {x : ℚ} (hx : 0 ≤ x) : 0 ≤ round2 x := by
  unfold round2
  have h : (0 : ℤ) ≤ round (x * 100) := by
    rw [round_eq]
    exact Int.floor_nonneg.mpr (by linarith)
  positivity

lemma round2_le_100 {x : ℚ} (hx : x ≤ 100) : round2 x ≤ 100 := by
  unfold round2
  have h : round (x * 100) ≤ (10000 : ℤ) := by
    rw [round_eq]
    have hlt : (⌊x * 100 + 1 / 2⌋ : ℚ) < ((10000 : ℤ) + 1 : ℤ) := by
      have := Int.floor_le (x * 100 + 1 / 2)
      push_cast
      linarith
    exact Int.le_of_lt_add_one (by exact_mod_cast hlt)
  have h' : (round (x * 100) : ℚ) ≤ 10000 := by exact_mod_cast h
  linarith

lemma round2_le_of_le {x y : ℚ} (h : x ≤ y) : round2 x ≤ round2 y := by
  unfold round2
  have : round (x * 100) ≤ round (y * 100) := by
    rw [round_eq, round_eq]
    exact Int.floor_le_floor (by linarith)
  have h' : (round (x * 100) : ℚ) ≤ (round (y * 100) : ℚ) := by exact_mod_cast this
  linarith

lemma ratio_term_nonneg {x a b : ℚ} (hx : 0 ≤ x) (ha : 0 ≤ a) (hb : 0 ≤ b) :
    0 ≤ x / a * b :=
  mul_nonneg (div_nonneg hx ha) hb

/-- C4: the exposure-scoring function on
`{avg_pm25: 35, peak_pm25: 50, hours_unhealthy: 100, duration_days: 5}`
returns exactly `asthma_risk = 62.5`, `copd_risk = 32.17`,
`cardiovascular_risk = 43.96`, `allergy_risk = 35.0`. -/
theorem calculate_disease_probabilities_concrete_scenario :
    calculate_disease_probabilities
        { avg_pm25 := 35, peak_pm25 := 50, hours_unhealthy := 100, duration_days := 5 } =
      { asthma_risk := 62.5, copd_risk := 32.17,
        cardiovascular_risk := 43.96, allergy_risk := 35.0 } := by
  norm_num [calculate_disease_probabilities, round2, round_eq]

/-- C5: for every ExposureProfile with non-negative `avg_pm25`, `peak_pm25`
and `hours_unhealthy`, all four fields of the returned RiskScoreSet lie in
the closed interval `[0, 100]`. -/
theorem calculate_disease_probabilities_bounded (e : ExposureProfile)
    (h1 : 0 ≤ e.avg_pm25) (h2 : 0 ≤ e.peak_pm25) (h3 : 0 ≤ e.hours_unhealthy) :
    (0 ≤ (calculate_disease_probabilities e).asthma_risk ∧
        (calculate_disease_probabilities e).asthma_risk ≤ 100) ∧
    (0 ≤ (calculate_disease_probabilities e).copd_risk ∧
        (calculate_disease_probabilities e).copd_risk ≤ 100) ∧
    (0 ≤ (calculate_disease_probabilities e).cardiovascular_risk ∧
        (calculate_disease_probabilities e).cardiovascular_risk ≤ 100) ∧
    (0 ≤ (calculate_disease_probabilities e).allergy_risk ∧
        (calculate_disease_probabilities e).allergy_risk ≤ 100) := by
  have hbase : 0 ≤ min 100 ((e.avg_pm25 / 35) * 50) :=
    min100_nonneg (ratio_term_nonneg h1 (by norm_num) (by norm_num))
  have hfac : 0 ≤ 1 + (e.peak_pm25 / 100) * (1/2) :=
    add_nonneg zero_le_one (ratio_term_nonneg h2 (by norm_num) (by norm_num))
  refine ⟨⟨round2_nonneg (min100_nonneg (mul_nonneg hbase hfac)),
            round2_le_100 (min100_le _)⟩,
          ⟨round2_nonneg (min100_nonneg (add_nonneg
              (ratio_term_nonneg h1 (by norm_num) (by norm_num))
              (ratio_term_nonneg h3 (by norm_num) (by norm_num)))),
            round2_le_100 (min100_le _)⟩,
          ⟨round2_nonneg (min100_nonneg (add_nonneg
              (ratio_term_nonneg h1 (by norm_num) (by norm_num))
              (ratio_term_nonneg h2 (by norm_num) (by norm_num)))),
            round2_le_100 (min100_le _)⟩,
          ⟨round2_nonneg (min100_nonneg
              (ratio_term_nonneg h1 (by norm_num) (by norm_num))),
            round2_le_100 (min100_le _)⟩⟩

/-- Witness for C5 at the extreme profile `avg_pm25 = 10000` (others 0). -/
theorem calculate_disease_probabilities_bounded_witness :
    (0 : ℚ) ≤ 10000 ∧
    ((0 ≤ (calculate_disease_probabilities
          { avg_pm25 := 10000, peak_pm25 := 0, hours_unhealthy := 0,
            duration_days := 0 }).asthma_risk ∧
        (calculate_disease_probabilities
          { avg_pm25 := 10000, peak_pm25 := 0, hours_unhealthy := 0,
            duration_days := 0 }).asthma_risk ≤ 100) ∧
      (0 ≤ (calculate_disease_probabilities
          { avg_pm25 := 10000, peak_pm25 := 0, hours_unhealthy := 0,
            duration_days := 0 }).copd_risk ∧
        (calculate_disease_probabilities
          { avg_pm25 := 10000, peak_pm25 := 0, hours_unhealthy := 0,
            duration_days := 0 }).copd_risk ≤ 100) ∧
      (0 ≤ (calculate_disease_probabilities
          { avg_pm25 := 10000, peak_pm25 := 0, hours_unhealthy := 0,
            duration_days := 0 }).cardiovascular_risk ∧
        (calculate_disease_probabilities
          { avg_pm25 := 10000, peak_pm25 := 0, hours_unhealthy := 0,
            duration_days := 0 }).cardiovascular_risk ≤ 100) ∧
      (0 ≤ (calculate_disease_probabilities
          { avg_pm25 := 10000, peak_pm25 := 0, hours_unhealthy := 0,
            duration_days := 0 }).allergy_risk ∧
        (calculate_disease_probabilities
          { avg_pm25 := 10000, peak_pm25 := 0, hours_unhealthy := 0,
            duration_days := 0 }).allergy_risk ≤ 100)) :=
  ⟨by norm_num,
    calculate_disease_probabilities_bounded
      { avg_pm25 := 10000, peak_pm25 := 0, hours_unhealthy := 0, duration_days := 0 }
      (by norm_num) (by norm_num) (by norm_num)⟩

/-- C6 counterexample: a negative `hours_unhealthy` is NOT rejected.  The
function returns a computed RiskScoreSet — at `hours_unhealthy = -720` (with
zero pm25 and peak) `copd_risk` comes out as `-30`, which also differs from
the result of clamping the negative hours to zero, so the value is neither
rejected nor silently clamped. -/
theorem negative_hours_not_rejected_cex :
    calculate_disease_probabilities
        { avg_pm25 := 0, peak_pm25 := 0, hours_unhealthy := -720, duration_days := 0 } =
      { asthma_risk := 0, copd_risk := -30, cardiovascular_risk := 0, allergy_risk := 0 } ∧
    calculate_disease_probabilities
        { avg_pm25 := 0, peak_pm25 := 0, hours_unhealthy := -720, duration_days := 0 } ≠
      calculate_disease_probabilities
        { avg_pm25 := 0, peak_pm25 := 0, hours_unhealthy := 0, duration_days := 0 } := by
  constructor
  · norm_num [calculate_disease_probabilities, round2, round_eq]
  · intro h
    have := congrArg RiskScoreSet.copd_risk h
    norm_num [calculate_disease_probabilities, round2, round_eq] at this

/-- C6 amended: the code applies the scoring formulas to a negative
`hours_unhealthy` unchanged; the negative hours term drives `copd_risk`
below zero (for `hours_unhealthy ≤ -720` the returned `copd_risk` is at most
`-30`), so the input is neither rejected nor clamped to zero. -/
theorem negative_hours_computed (h : ℚ) (hneg : h ≤ -720) :
    (calculate_disease_probabilities
        { avg_pm25 := 0, peak_pm25 := 0, hours_unhealthy := h, duration_days := 0 }).copd_risk
      ≤ -30 := by
  have hval : (calculate_disease_probabilities
      { avg_pm25 := 0, peak_pm25 := 0, hours_unhealthy := h, duration_days := 0 }).copd_risk
      = round2 (min 100 ((0 / 50) * 40 + (h / 720) * 30)) := rfl
  rw [hval]
  have hterm : (0 : ℚ) / 50 * 40 + (h / 720) * 30 ≤ -30 := by
    have : h / 720 * 30 ≤ -30 := by linarith
    linarith
  have hmin : min (100 : ℚ) ((0 / 50) * 40 + (h / 720) * 30) ≤ -30 :=
    le_trans (min_le_right _ _) hterm
  have : round2 (min (100 : ℚ) ((0 / 50) * 40 + (h / 720) * 30)) ≤ round2 (-30) :=
    round2_le_of_le hmin
  have hr : round2 (-30 : ℚ) = -30 := by norm_num [round2, round_eq]
  linarith [this, hr.le]

/-- Witness for the amended C6 at `hours_unhealthy = -720`. -/
theorem negative_hours_computed_witness :
    (-720 : ℚ) ≤ -720 ∧
    (calculate_disease_probabilities
        { avg_pm25 := 0, peak_pm25 := 0, hours_unhealthy := -720, duration_days := 0 }).copd_risk
      ≤ -30 :=
  ⟨le_refl _, negative_hours_computed (-720) (le_refl _)⟩

/-- C10: `duration_days` never influences the output — two profiles agreeing
on `avg_pm25`, `peak_pm25` and `hours_unhealthy` yield identical
RiskScoreSets. -/
theorem duration_days_noninterference (p q : ExposureProfile)
    (h1 : p.avg_pm25 = q.avg_pm25) (h2 : p.peak_pm25 = q.peak_pm25)
    (h3 : p.hours_unhealthy = q.hours_unhealthy) :
    calculate_disease_probabilities p = calculate_disease_probabilities q := by
  cases p; cases q
  simp_all [calculate_disease_probabilities]

/-- Witness for C10: two profiles differing only in `duration_days`. -/
theorem duration_days_noninterference_witness :
    calculate_disease_probabilities
        { avg_pm25 := 35, peak_pm25 := 50, hours_unhealthy := 100, duration_days := 5 } =
      calculate_disease_probabilities
        { avg_pm25 := 35, peak_pm25 := 50, hours_unhealthy := 100, duration_days := 5000 } :=
  duration_days_noninterference _ _ rfl rfl rfl

/-! ## SequenceWindower: the per-device loop of `prepare_lstm_data`
(train.py lines 85-96).

A device series is `List (List ℚ)` — one row of the 7 normalized feature
values per time step; the target (`aqi_calculated`) is column 0. -/

/-- The inner loop of `prepare_lstm_data` for one device:
`for i in range(len(device_data) - lookback - forecast_horizon)` appends
features `device_data[i : i+lookback]` (all columns) and label
`device_data[i+lookback : i+lookback+forecast_horizon, 0]` (column 0 only).
Natural subtraction matches Python `range` of a negative bound (empty). -/
def deviceWindows (device_data : List (List ℚ)) (lookback forecast_horizon : ℕ) :
    List (List (List ℚ) × List ℚ) :=
  (List.range (device_data.length - lookback - forecast_horizon)).map (fun i =>
    ((device_data.drop i).take lookback,
     ((device_data.drop (i + lookback)).take forecast_horizon).map (fun row => row.headD 0)))

/-- The outer loop of `prepare_lstm_data`: windows of every device,
concatenated in device order (`X, y` lists, train.py lines 85-96). -/
def prepare_lstm_sequences (devices : List (List (List ℚ))) (lookback forecast_horizon : ℕ) :
    List (List (List ℚ) × List ℚ) :=
  (devices.map (fun d => deviceWindows d lookback forecast_horizon)).flatten

/-- C1 counterexample: with `lookback = 2`, `forecast_horizon = 1` a series
of length exactly `lookback + forecast_horizon = 3` yields ZERO windows,
not one as claimed — `range(3 - 2 - 1) = range(0)` is empty. -/
theorem series_length_lookback_plus_horizon_cex :
    deviceWindows [[(1 : ℚ)], [2], [3]] 2 1 = [] ∧
    (deviceWindows [[(1 : ℚ)], [2], [3]] 2 1).length ≠ 1 := by
  decide

/-- C1 amended: the number of windows from a device series of length `N` is
`N - lookback - forecast_horizon` (natural/truncated subtraction).  Hence a
series of length exactly `lookback + forecast_horizon` yields zero windows,
one window first appears at length `lookback + forecast_horizon + 1`, and a
series of length `lookback + forecast_horizon - 1` yields zero windows. -/
theorem deviceWindows_count (device_data : List (List ℚ)) (lookback forecast_horizon : ℕ) :
    (deviceWindows device_data lookback forecast_horizon).length =
      device_data.length - lookback - forecast_horizon := by
  simp [deviceWindows]

/-- C2: every window produced by `prepare_lstm_data`'s sequence loop has
exactly `lookback` feature rows (full rows, all columns), exactly
`forecast_horizon` label values taken from column 0 (the target,
`aqi_calculated`, first feature) only, and both its feature rows and its
label values are contiguous slices of a single device's series — no window
spans two devices. -/
theorem window_shape_single_entity (devices : List (List (List ℚ)))
    (lookback forecast_horizon : ℕ) (w : List (List ℚ) × List ℚ)
    (hw : w ∈ prepare_lstm_sequences devices lookback forecast_horizon) :
    w.1.length = lookback ∧ w.2.length = forecast_horizon ∧
    ∃ d ∈ devices, ∃ i,
      w.1 = (d.drop i).take lookback ∧
      w.2 = ((d.drop (i + lookback)).take forecast_horizon).map (fun row => row.headD 0) := by
  obtain ⟨ld, hld, hwl⟩ := List.mem_flatten.mp hw
  obtain ⟨d, hd, rfl⟩ := List.mem_map.mp hld
  obtain ⟨i, hi, rfl⟩ := List.mem_map.mp hwl
  have hi' : i < d.length - lookback - forecast_horizon := List.mem_range.mp hi
  refine ⟨?_, ?_, d, hd, i, rfl, rfl⟩
  · simp only [List.length_take, List.length_drop]
    omega
  · simp only [List.length_map, List.length_take, List.length_drop]
    omega

/-- Witness for C2: the single window of a 4-step, one-device corpus with
`lookback = 2`, `forecast_horizon = 1`. -/
theorem window_shape_single_entity_witness :
    (([[(1 : ℚ)], [2]], ([3] : List ℚ)) ∈
        prepare_lstm_sequences [[[(1 : ℚ)], [2], [3], [4]]] 2 1) ∧
    (([[(1 : ℚ)], [2]], ([3] : List ℚ)).1.length = 2 ∧
      (([[(1 : ℚ)], [2]], ([3] : List ℚ)).2.length = 1 ∧
        ∃ d ∈ [[[(1 : ℚ)], [2], [3], [4]]], ∃ i,
          ([[(1 : ℚ)], [2]], ([3] : List ℚ)).1 = (d.drop i).take 2 ∧
          ([[(1 : ℚ)], [2]], ([3] : List ℚ)).2 =
            ((d.drop (i + 2)).take 1).map (fun row => row.headD 0))) :=
  ⟨by decide,
    (window_shape_single_entity [[[(1 : ℚ)], [2], [3], [4]]] 2 1
        ([[(1 : ℚ)], [2]], ([3] : List ℚ)) (by decide)).1,
    (window_shape_single_entity [[[(1 : ℚ)], [2], [3], [4]]] 2 1
        ([[(1 : ℚ)], [2]], ([3] : List ℚ)) (by decide)).2⟩

/-! ## FeatureScaler: `df[feature_cols].fillna(0)` + sklearn `MinMaxScaler`
and the persisted `scaler_params` artifact (train.py lines 69-83).

A fit corpus is `List (List (Option ℚ))` — one row per measurement, entry
`j` the value of feature `feature_cols[j]`, `none` for a null cell. -/

/-- The seven LSTM feature columns, in order (train.py lines 69-70). -/
def feature_cols : List String :=
  ["aqi_calculated", "iaq_score", "temperature", "humidity",
   "pressure_hpa", "hour_of_day", "day_of_week"]

/-- Column `j` of `df[feature_cols].fillna(0)`: entry `j` of each row with
null (or absent) cells replaced by 0 (train.py line 74). -/
def colVals (rows : List (List (Option ℚ))) (j : ℕ) : List ℚ :=
  rows.map (fun r => (r.getD j none).getD 0)

/-- Minimum of a column, as computed by `MinMaxScaler.fit` (`data_min_`). -/
def listMin : List ℚ → ℚ
  | [] => 0
  | x :: xs => xs.foldl min x

/-- Maximum of a column, as computed by `MinMaxScaler.fit` (`data_max_`). -/
def listMax : List ℚ → ℚ
  | [] => 0
  | x :: xs => xs.foldl max x

/-- sklearn `MinMaxScaler` value transform at default feature range (0,1):
`(x - data_min) / (data_max - data_min)`, where a zero range
(`max == min`) is replaced by a divisor of 1
(sklearn's `_handle_zeros_in_scale`), so a constant column maps to 0
rather than faulting. -/
def scaleVal (mn mx x : ℚ) : ℚ := (x - mn) / (if mx = mn then 1 else mx - mn)

/-- `scaler.fit_transform(df[feature_cols].fillna(0))` on column `j`
(train.py lines 73-74). -/
def transformCol (rows : List (List (Option ℚ))) (j : ℕ) : List ℚ :=
  (colVals rows j).map (scaleVal (listMin (colVals rows j)) (listMax (colVals rows j)))

lemma foldl_min_le (l : List ℚ) :
    ∀ a : ℚ, l.foldl min a ≤ a ∧ ∀ x ∈ l, l.foldl min a ≤ x := by
  induction l with
  | nil => intro a; exact ⟨le_refl a, by simp⟩
  | cons y ys ih =>
      intro a
      refine ⟨le_trans (ih (min a y)).1 (min_le_left a y), ?_⟩
      intro x hx
      rcases List.mem_cons.mp hx with h | h
      · subst h; exact le_trans (ih (min a x)).1 (min_le_right a x)
      · exact (ih (min a y)).2 x h

lemma le_foldl_max (l : List ℚ) :
    ∀ a : ℚ, a ≤ l.foldl max a ∧ ∀ x ∈ l, x ≤ l.foldl max a := by
  induction l with
  | nil => intro a; exact ⟨le_refl a, by simp⟩
  | cons y ys ih =>
      intro a
      refine ⟨le_trans (le_max_left a y) (ih (max a y)).1, ?_⟩
      intro x hx
      rcases List.mem_cons.mp hx with h | h
      · subst h; exact le_trans (le_max_right a x) (ih (max a x)).1
      · exact (ih (max a y)).2 x h

lemma listMin_le {l : List ℚ} {x : ℚ} (hx : x ∈ l) : listMin l ≤ x := by
  cases l with
  | nil => simp at hx
  | cons y ys =>
      rcases List.mem_cons.mp hx with h | h
      · subst h; exact (foldl_min_le ys x).1
      · exact (foldl_min_le ys y).2 x h

lemma le_listMax {l : List ℚ} {x : ℚ} (hx : x ∈ l) : x ≤ listMax l := by
  cases l with
  | nil => simp at hx
  | cons y ys =>
      rcases List.mem_cons.mp hx with h | h
      · subst h; exact (le_foldl_max ys x).1
      · exact (le_foldl_max ys y).2 x h

lemma colVals_fill (rows : List (List (Option ℚ))) (j : ℕ) :
    colVals (rows.map (fun r => r.map (fun v => some (v.getD 0)))) j = colVals rows j := by
  unfold colVals
  rw [List.map_map]
  apply List.map_congr_left
  intro r _
  simp only [Function.comp]
  rw [List.getD_eq_getElem?_getD, List.getD_eq_getElem?_getD, List.getElem?_map]
  cases r[j]? with
  | none => rfl
  | some v => cases v <;> rfl

/-- C7: the scaler (a) treats every null cell as 0 before fitting and before
scaling — pre-filling nulls with 0 changes nothing; (b) maps each value `x`
of a non-constant column to `(x - min) / (max - min)`; and (c) on a column
whose fitted max equals its fitted min it returns 0 for every row, never a
division-by-zero fault (the transform is total). -/
theorem scaler_fill_and_degenerate (rows : List (List (Option ℚ))) (j : ℕ) :
    transformCol (rows.map (fun r => r.map (fun v => some (v.getD 0)))) j =
      transformCol rows j ∧
    (listMax (colVals rows j) ≠ listMin (colVals rows j) →
      transformCol rows j = (colVals rows j).map (fun x =>
        (x - listMin (colVals rows j)) /
          (listMax (colVals rows j) - listMin (colVals rows j)))) ∧
    (listMax (colVals rows j) = listMin (colVals rows j) →
      ∀ y ∈ transformCol rows j, y = 0) := by
  refine ⟨by rw [transformCol, transformCol, colVals_fill], ?_, ?_⟩
  · intro hne
    unfold transformCol
    apply List.map_congr_left
    intro x _
    unfold scaleVal
    rw [if_neg hne]
  · intro heq y hy
    obtain ⟨x, hx, rfl⟩ := List.mem_map.mp hy
    have h1 : listMin (colVals rows j) ≤ x := listMin_le hx
    have h2 : x ≤ listMax (colVals rows j) := le_listMax hx
    have hxeq : x = listMin (colVals rows j) := le_antisymm (heq ▸ h2) h1
    unfold scaleVal
    rw [if_pos heq, hxeq]
    simp

/-- Witness for C7: a non-constant column `[1, 3]` and a constant column
`[2, 2]`. -/
theorem scaler_fill_and_degenerate_witness :
    (listMax (colVals [[some 1], [some 3]] 0) ≠ listMin (colVals [[some 1], [some 3]] 0)) ∧
    transformCol [[some 1], [some 3]] 0 =
      (colVals [[some 1], [some 3]] 0).map (fun x =>
        (x - listMin (colVals [[some 1], [some 3]] 0)) /
          (listMax (colVals [[some 1], [some 3]] 0) -
            listMin (colVals [[some 1], [some 3]] 0))) ∧
    (listMax (colVals [[some 2], [some 2]] 0) = listMin (colVals [[some 2], [some 2]] 0)) ∧
    (∀ y ∈ transformCol [[some 2], [some 2]] 0, y = 0) :=
  ⟨by decide,
    (scaler_fill_and_degenerate [[some 1], [some 3]] 0).2.1 (by decide),
    by decide,
    (scaler_fill_and_degenerate [[some 2], [some 2]] 0).2.2 (by decide)⟩

/-- `scaler.data_min_.tolist()`: fitted per-feature minima, in feature
order. -/
def dataMin (rows : List (List (Option ℚ))) : List ℚ :=
  (List.range feature_cols.length).map (fun j => listMin (colVals rows j))

/-- `scaler.data_max_.tolist()`: fitted per-feature maxima, in feature
order. -/
def dataMax (rows : List (List (Option ℚ))) : List ℚ :=
  (List.range feature_cols.length).map (fun j => listMax (colVals rows j))

/-- A JSON value of the shapes occurring in `scaler_params.json`. -/
inductive JsonVal where
  | nums (l : List ℚ)
  | strs (l : List String)
deriving DecidableEq

/-- The `scaler_params` dict written to `models/scaler_params.json`
(train.py lines 77-83), keys in insertion order. -/
def scaler_params (rows : List (List (Option ℚ))) : List (String × JsonVal) :=
  [("min", JsonVal.nums (dataMin rows)),
   ("max", JsonVal.nums (dataMax rows)),
   ("feature_cols", JsonVal.strs feature_cols)]

/-- C9 counterexample: the persisted artifact's third key is
`"feature_cols"`, not `"feature_names"` as the claim states — shown on a
concrete one-row fit corpus. -/
theorem scaler_params_keys_cex :
    (scaler_params [[some 1]]).map Prod.fst = ["min", "max", "feature_cols"] ∧
    (scaler_params [[some 1]]).map Prod.fst ≠ ["min", "max", "feature_names"] := by
  decide

/-- C9 amended: the persisted scaler artifact is a structured record with
exactly the fields `min`, `max` and `feature_cols` (not `feature_names`);
the two float lists both have the length of the feature list and are
index-aligned with it — entry `j` of `min`/`max` is exactly the fitted
min/max that the scaler uses to transform the column of feature
`feature_cols[j]`. -/
theorem scaler_params_aligned (rows : List (List (Option ℚ))) :
    (scaler_params rows).map Prod.fst = ["min", "max", "feature_cols"] ∧
    (dataMin rows).length = feature_cols.length ∧
    (dataMax rows).length = feature_cols.length ∧
    ∀ j, j < feature_cols.length →
      (dataMin rows).getD j 0 = listMin (colVals rows j) ∧
      (dataMax rows).getD j 0 = listMax (colVals rows j) ∧
      transformCol rows j = (colVals rows j).map
        (scaleVal ((dataMin rows).getD j 0) ((dataMax rows).getD j 0)) := by
  refine ⟨rfl, by simp [dataMin], by simp [dataMax], ?_⟩
  intro j hj
  have hmin : (dataMin rows).getD j 0 = listMin (colVals rows j) := by
    unfold dataMin
    rw [List.getD_eq_getElem?_getD, List.getElem?_map, List.getElem?_range hj]
    rfl
  have hmax : (dataMax rows).getD j 0 = listMax (colVals rows j) := by
    unfold dataMax
    rw [List.getD_eq_getElem?_getD, List.getElem?_map, List.getElem?_range hj]
    rfl
  exact ⟨hmin, hmax, by rw [hmin, hmax]; rfl⟩

/-- Witness for the amended C9 on a concrete two-row corpus, feature 0. -/
theorem scaler_params_aligned_witness :
    (scaler_params [[some 1], [some 3]]).map Prod.fst = ["min", "max", "feature_cols"] ∧
    (dataMin [[some 1], [some 3]]).length = feature_cols.length ∧
    (dataMax [[some 1], [some 3]]).length = feature_cols.length ∧
    (0 < feature_cols.length ∧
      (dataMin [[some 1], [some 3]]).getD 0 0 = listMin (colVals [[some 1], [some 3]] 0) ∧
      (dataMax [[some 1], [some 3]]).getD 0 0 = listMax (colVals [[some 1], [some 3]] 0) ∧
      transformCol [[some 1], [some 3]] 0 = (colVals [[some 1], [some 3]] 0).map
        (scaleVal ((dataMin [[some 1], [some 3]]).getD 0 0)
          ((dataMax [[some 1], [some 3]]).getD 0 0))) :=
  ⟨(scaler_params_aligned [[some 1], [some 3]]).1,
    (scaler_params_aligned [[some 1], [some 3]]).2.1,
    (scaler_params_aligned [[some 1], [some 3]]).2.2.1,
    by decide,
    (scaler_params_aligned [[some 1], [some 3]]).2.2.2 0 (by decide)⟩

/-! ## DailyAggregator: `prepare_health_risk_data` (train.py lines 162-205).

Measurement rows carry a non-null target (`aqi_calculated`; null rows are
filtered out by the fetch query, line 51) and nullable sensor columns.
`measured_at` is an integer UTC timestamp in seconds. -/

/-- One fetched measurement row (train.py lines 29-56). -/
structure Measurement where
  device_id : ℕ
  measured_at : ℕ
  aqi_calculated : ℚ
  iaq_score : Option ℚ
  temperature : Option ℚ
  humidity : Option ℚ
  pressure_hpa : Option ℚ
deriving DecidableEq

/-- `pd.to_datetime(df['measured_at']).dt.date` (train.py line 172): the
calendar day of a timestamp. -/
def dateOf (t : ℕ) : ℕ := t / 86400

/-- Mean of a non-nullable column. -/
def qMean (xs : List ℚ) : ℚ := xs.sum / xs.length

/-- pandas `mean` of a nullable column: nulls are skipped; `NaN` (here
`none`) when no value is present. -/
def optMean (xs : List (Option ℚ)) : Option ℚ :=
  let v := xs.filterMap id
  if v.length = 0 then none else some (v.sum / v.length)

/-- pandas sample standard deviation (`std`, `ddof = 1`): `NaN` (here
`none`) for fewer than two values. -/
noncomputable def sampleStd (xs : List ℚ) : Option ℝ :=
  if 2 ≤ xs.length then
    some (Real.sqrt ((xs.map (fun x => ((x : ℝ) - ((qMean xs : ℚ) : ℝ)) ^ 2)).sum /
      ((xs.length : ℝ) - 1)))
  else none

/-- One row of `daily_agg` after the column renaming
(train.py lines 174-183). -/
structure DailyAggRow where
  device_id : ℕ
  date : ℕ
  avg_aqi : ℚ
  max_aqi : ℚ
  std_aqi : Option ℝ
  avg_iaq : Option ℚ
  avg_temp : Option ℚ
  avg_hum : Option ℚ
  avg_pressure : Option ℚ

/-- The aggregation applied to one `(device_id, date)` group
(train.py lines 174-183). -/
noncomputable def aggregate_group (k : ℕ × ℕ) (ms : List Measurement) : DailyAggRow :=
  { device_id := k.1
    date := k.2
    avg_aqi := qMean (ms.map Measurement.aqi_calculated)
    max_aqi := listMax (ms.map Measurement.aqi_calculated)
    std_aqi := sampleStd (ms.map Measurement.aqi_calculated)
    avg_iaq := optMean (ms.map Measurement.iaq_score)
    avg_temp := optMean (ms.map Measurement.temperature)
    avg_hum := optMean (ms.map Measurement.humidity)
    avg_pressure := optMean (ms.map Measurement.pressure_hpa) }

/-- The distinct `(device_id, date)` group keys of a dataframe, in first
occurrence order (pandas `groupby`). -/
def keysOf (df : List Measurement) : List (ℕ × ℕ) :=
  (df.map (fun m => (m.device_id, dateOf m.measured_at))).dedup

/-- The rows belonging to one `(device_id, date)` group. -/
def groupFor (df : List Measurement) (k : ℕ × ℕ) : List Measurement :=
  df.filter (fun m => (m.device_id, dateOf m.measured_at) = k)

/-- `df.groupby(['device_id', 'date']).agg(...)` (train.py lines 174-183):
one aggregate row per group. -/
noncomputable def daily_agg (df : List Measurement) : List DailyAggRow :=
  (keysOf df).map (fun k => aggregate_group k (groupFor df k))

/-- The `std_aqi` entry of the classifier feature matrix
`X = daily_agg[feature_cols].fillna(0)` (train.py lines 199-202): a `NaN`
standard deviation becomes 0. -/
def std_aqi_feature (r : DailyAggRow) : ℝ := r.std_aqi.getD 0

/-- `assign_risk` (train.py lines 186-194): the risk label of a daily
aggregate row, read solely from its `avg_aqi` column. -/
def assign_risk (row : DailyAggRow) : ℕ :=
  if row.avg_aqi < 50 then 0
  else if row.avg_aqi < 100 then 1
  else if row.avg_aqi < 150 then 2
  else 3

/-- C3: `assign_risk` is the step function `avg_aqi < 50 ↦ 0`,
`50 ≤ avg_aqi < 100 ↦ 1`, `100 ≤ avg_aqi < 150 ↦ 2`, `avg_aqi ≥ 150 ↦ 3`
(so the boundaries 50, 100, 150 map to 1, 2, 3); it is monotone
non-decreasing in `avg_aqi`, and no field other than `avg_aqi` influences
the label. -/
theorem assign_risk_spec :
    (∀ row : DailyAggRow,
      (row.avg_aqi < 50 → assign_risk row = 0) ∧
      (50 ≤ row.avg_aqi → row.avg_aqi < 100 → assign_risk row = 1) ∧
      (100 ≤ row.avg_aqi → row.avg_aqi < 150 → assign_risk row = 2) ∧
      (150 ≤ row.avg_aqi → assign_risk row = 3)) ∧
    (∀ r s : DailyAggRow, r.avg_aqi ≤ s.avg_aqi → assign_risk r ≤ assign_risk s) ∧
    (∀ r s : DailyAggRow, r.avg_aqi = s.avg_aqi → assign_risk r = assign_risk s) := by
  refine ⟨?_, ?_, ?_⟩
  · intro row
    refine ⟨?_, ?_, ?_, ?_⟩ <;> intros <;> unfold assign_risk <;>
      split_ifs <;> first | rfl | linarith
  · intro r s h
    unfold assign_risk
    split_ifs <;> first | omega | linarith
  · intro r s h
    unfold assign_risk
    rw [h]

/-- Witness for C3: the boundary values 49, 50, 100, 150, monotonicity
between two concrete rows, and two rows equal in `avg_aqi` but different
everywhere else. -/
theorem assign_risk_spec_witness :
    assign_risk (⟨0, 0, 49, 49, none, none, none, none, none⟩ : DailyAggRow) = 0 ∧
    assign_risk (⟨0, 0, 50, 50, none, none, none, none, none⟩ : DailyAggRow) = 1 ∧
    assign_risk (⟨0, 0, 100, 100, none, none, none, none, none⟩ : DailyAggRow) = 2 ∧
    assign_risk (⟨0, 0, 150, 150, none, none, none, none, none⟩ : DailyAggRow) = 3 ∧
    assign_risk (⟨0, 0, 49, 49, none, none, none, none, none⟩ : DailyAggRow) ≤
      assign_risk (⟨0, 0, 150, 150, none, none, none, none, none⟩ : DailyAggRow) ∧
    assign_risk (⟨0, 0, 75, 80, none, none, none, none, none⟩ : DailyAggRow) =
      assign_risk (⟨9, 7, 75, 500, none, some 1, some 2, some 3, some 4⟩ : DailyAggRow) :=
  ⟨(assign_risk_spec.1 _).1 (by decide),
    (assign_risk_spec.1 _).2.1 (by decide) (by decide),
    (assign_risk_spec.1 _).2.2.1 (by decide) (by decide),
    (assign_risk_spec.1 _).2.2.2 (by decide),
    assign_risk_spec.2.1 _ _ (by decide),
    assign_risk_spec.2.2 _ _ (by decide)⟩

/-- C8: a `(device, date)` group with exactly one measurement has a `NaN`
(undefined) sample standard deviation inside `daily_agg`, and the
`fillna(0)` applied when the classifier feature matrix is built turns it
into the value 0 in the output. -/
theorem single_measurement_day_std (df : List Measurement) (k : ℕ × ℕ)
    (_hk : k ∈ keysOf df) (h1 : (groupFor df k).length = 1) :
    (aggregate_group k (groupFor df k)).std_aqi = none ∧
    std_aqi_feature (aggregate_group k (groupFor df k)) = 0 := by
  have hstd : (aggregate_group k (groupFor df k)).std_aqi =
      sampleStd ((groupFor df k).map Measurement.aqi_calculated) := rfl
  have hlen : ((groupFor df k).map Measurement.aqi_calculated).length = 1 := by
    simp [h1]
  have hnone : sampleStd ((groupFor df k).map Measurement.aqi_calculated) = none := by
    unfold sampleStd
    rw [if_neg]
    omega
  refine ⟨hstd.trans hnone, ?_⟩
  unfold std_aqi_feature
  rw [hstd, hnone]
  rfl

/-- Witness for C8: a one-measurement dataframe and its single group. -/
theorem single_measurement_day_std_witness :
    ((1, 0) ∈ keysOf [⟨1, 0, 42, none, none, none, none⟩]) ∧
    (groupFor [⟨1, 0, 42, none, none, none, none⟩] (1, 0)).length = 1 ∧
    (aggregate_group (1, 0)
        (groupFor [⟨1, 0, 42, none, none, none, none⟩] (1, 0))).std_aqi = none ∧
    std_aqi_feature (aggregate_group (1, 0)
        (groupFor [⟨1, 0, 42, none, none, none, none⟩] (1, 0))) = 0 :=
  ⟨by decide, by decide,
    (single_measurement_day_std [⟨1, 0, 42, none, none, none, none⟩] (1, 0)
        (by decide) (by decide)).1,
    (single_measurement_day_std [⟨1, 0, 42, none, none, none, none⟩] (1, 0)
        (by decide) (by decide)).2⟩

end AQI
